import Mathlib

/-!
Verification of the clarity price-consensus engine and analysis/scoring/ranking
pipeline (backend/app/services). The Python source is shallowly embedded:
numeric values are exact rationals, dictionaries are association lists, and
fallible computations return `Except`.  Each claim of the specification is
settled by a theorem about these definitions.
-/

/-! ### Python rounding

`round(x, 2)` in Python rounds half to even.  We model float values by exact
rationals, so `pyRound` is round-half-to-even on `ℚ` and `round2 x` is
`round(x, 2)`. -/

/-- Python `round` (banker's rounding, half to even) on an exact rational. -/
def pyRound (x : ℚ) : ℤ :=
  if x - ⌊x⌋ < 1/2 then ⌊x⌋
  else if 1/2 < x - ⌊x⌋ then ⌊x⌋ + 1
  else if ⌊x⌋ % 2 = 0 then ⌊x⌋ else ⌊x⌋ + 1

/-- Python `round(x, 2)` on an exact rational. -/
def round2 (x : ℚ) : ℚ := (pyRound (x * 100) : ℚ) / 100

theorem pyRound_le {x : ℚ} {n : ℤ} (h : x ≤ n) : pyRound x ≤ n := by
  have hf : ⌊x⌋ ≤ n := by
    have := Int.floor_le_floor h
    simpa using this
  unfold pyRound
  by_cases hfn : ⌊x⌋ = n
  · have hr : x - ⌊x⌋ < 1/2 := by
      have hx : x ≤ (⌊x⌋ : ℚ) := by rw [hfn]; exact_mod_cast h
      have : x - ⌊x⌋ ≤ 0 := by linarith
      linarith
    simp only [hr, if_pos]
    exact hf
  · have hlt : ⌊x⌋ + 1 ≤ n := by omega
    split_ifs <;> omega

theorem le_pyRound {x : ℚ} {n : ℤ} (h : (n : ℚ) ≤ x) : n ≤ pyRound x := by
  have hf : n ≤ ⌊x⌋ := Int.le_floor.mpr h
  unfold pyRound
  split_ifs <;> omega

/-! ### Consensus Engine (`services/consensus_engine.py`)

`ConsensusEngine._fetch_consensus_internal` gathers one response per provider
(`asyncio.gather(..., return_exceptions=True)`), so its input is the list of
`(provider.source_name, response)` pairs.  A response is an exception, a
non-dict value, or a dict; numeric dict fields are modelled as rationals (the
string form of `LastPrice` is abstracted to the number it denotes, which is
what `float(p.replace(",", ""))` produces). -/

/-- One settled provider response, as seen by the merge loop. -/
inductive ProviderResponse where
  | exc
  | nonDict
  | dict (fields : List (String × ℚ))
deriving DecidableEq, Repr

/-- Python `res.get(k)` on the modelled dict. -/
def dictGet (fields : List (String × ℚ)) (k : String) : Option ℚ :=
  (fields.find? (fun p => p.1 == k)).map (·.2)

/-- Source-specific price extraction (lines 76-88 of the engine): `LastPrice`
for NSE_Lib, the `currentPrice or regularMarketPrice or price` chain for
YahooFinance (Python `or` skips missing and zero values), `price` for
GoogleFinance; any other provider leaves the initialized `price = 0.0`. -/
def extractPrice (name : String) (fields : List (String × ℚ)) : ℚ :=
  if name = "NSE_Lib" then (dictGet fields "LastPrice").getD 0
  else if name = "YahooFinance" then
    let c := (dictGet fields "currentPrice").getD 0
    let r := (dictGet fields "regularMarketPrice").getD 0
    if c ≠ 0 then c else if r ≠ 0 then r else (dictGet fields "price").getD 0
  else if name = "GoogleFinance" then (dictGet fields "price").getD 0
  else 0

/-- The fixed weight table with its `weights.get(provider_name, 0.5)` default. -/
def weightOf (name : String) : ℚ :=
  if name = "NSE_Lib" then 1
  else if name = "YahooFinance" then 4/5
  else if name = "GoogleFinance" then 3/5
  else 1/2

/-- One entry of `valid_details` / `weighted_prices`: a positive extracted
price together with its source, weight and raw payload. -/
structure ValidQuote where
  source : String
  price : ℚ
  weight : ℚ
  data : List (String × ℚ)
deriving DecidableEq, Repr

/-- The merge loop's filter (lines 66-99): exceptions and non-dict responses
are skipped, a price is extracted per source, and only positive prices are
kept. -/
def validQuotes : List (String × ProviderResponse) → List ValidQuote
  | [] => []
  | (n, .dict fs) :: rest =>
      if extractPrice n fs > 0 then
        ⟨n, extractPrice n fs, weightOf n, fs⟩ :: validQuotes rest
      else validQuotes rest
  | (_, .exc) :: rest => validQuotes rest
  | (_, .nonDict) :: rest => validQuotes rest

/-- Result dict of `_fetch_consensus_internal`: the zero-valid-quotes branch
returns `{"status": "ERROR", "price": 0.0, "message": ...}` (no variance, no
sources), otherwise the full result. -/
inductive ConsensusResult where
  | err
  | ok (price : ℚ) (status : String) (variancePct : ℚ)
      (sources : List (String × ℚ)) (primarySource : Option String)
      (details : List (String × ℚ))
deriving DecidableEq, Repr

/-- The `status` field of the returned dict. -/
def cStatus : ConsensusResult → String
  | .err => "ERROR"
  | .ok _ s _ _ _ _ => s

/-- The `price` field of the returned dict. -/
def cPrice : ConsensusResult → ℚ
  | .err => 0
  | .ok p _ _ _ _ _ => p

/-- The `variance_pct` field; `none` when the dict carries no such key (the
ERROR branch). -/
def cVariancePct : ConsensusResult → Option ℚ
  | .err => none
  | .ok _ _ v _ _ _ => some v

/-- Minimum of a list of rationals (Python `min` on a non-empty list). -/
def minQ : List ℚ → Option ℚ
  | [] => none
  | x :: xs => some (xs.foldl min x)

/-- Maximum of a list of rationals (Python `max` on a non-empty list). -/
def maxQ : List ℚ → Option ℚ
  | [] => none
  | x :: xs => some (xs.foldl max x)

/-- First quote of maximal weight: `valid_details.sort(key=weight,
reverse=True)` is stable, so `valid_details[0]` is the first entry whose
weight is maximal. -/
def primaryOf (l : List ValidQuote) : Option ValidQuote :=
  l.foldl (fun best e =>
    match best with
    | none => some e
    | some b => if e.weight > b.weight then some e else some b) none

/-- Merge step of `_fetch_consensus_internal` (lines 101-134), applied to the
filtered valid quotes: weighted-average price, `(max-min)/min` variance,
status thresholds, highest-weight primary source, with `round(_, 2)` applied
to the price and to `variance * 100`. -/
def mergeQuotes (vq : List ValidQuote) : ConsensusResult :=
  if vq = [] then .err
  else
    let prices := vq.map (·.price)
    let minP := (minQ prices).getD 0
    let maxP := (maxQ prices).getD 0
    let variance := if minP > 0 then (maxP - minP) / minP else 0
    let status :=
      if 2 ≤ vq.length then
        if variance < 5/1000 then "VERIFIED"
        else if variance < 1/100 then "WARNING"
        else "UNSTABLE"
      else "SINGLE_SOURCE"
    let totalWeight := (vq.map (·.weight)).sum
    let finalPrice := (vq.map fun v => v.price * v.weight).sum / totalWeight
    let primary := primaryOf vq
    .ok (round2 finalPrice) status (round2 (variance * 100))
      (vq.map fun v => (v.source, v.price)) (primary.map (·.source))
      ((primary.map (·.data)).getD [])

/-- `_fetch_consensus_internal`: filter the settled responses, then merge. -/
def fetchConsensusInternal (rs : List (String × ProviderResponse)) : ConsensusResult :=
  mergeQuotes (validQuotes rs)

/-- Modelled from the spec sentence of step 5: weighted average price
`Σ(price·weight)/Σweight` over the valid quotes, weight from the fixed table
with default 0.5 for unrecognized sources. -/
def specWeightedAverage (rs : List (String × ProviderResponse)) : ℚ :=
  ((validQuotes rs).map fun v => v.price * v.weight).sum /
    ((validQuotes rs).map (·.weight)).sum

/-! ### Generic facts about the rounding and the quote filter -/

theorem pyRound_of_lt_half {x : ℚ} {n : ℤ} (h1 : (n : ℚ) ≤ x) (h2 : x - n < 1/2) :
    pyRound x = n := by
  have hfl : ⌊x⌋ = n := by
    rw [Int.floor_eq_iff]
    exact ⟨h1, by linarith⟩
  unfold pyRound
  rw [hfl]
  rw [if_pos h2]

theorem pyRound_of_half_lt {x : ℚ} {n : ℤ} (h1 : (n : ℚ) ≤ x) (h2 : 1/2 < x - n)
    (h3 : x < n + 1) : pyRound x = n + 1 := by
  have hfl : ⌊x⌋ = n := by
    rw [Int.floor_eq_iff]
    exact ⟨h1, by linarith⟩
  unfold pyRound
  rw [hfl]
  rw [if_neg (by linarith), if_pos h2]

theorem round2_zero : round2 0 = 0 := by
  unfold round2
  rw [show ((0:ℚ) * 100) = 0 by norm_num]
  rw [pyRound_of_lt_half (n := 0) (by norm_num) (by norm_num)]
  norm_num

theorem weightOf_pos (n : String) : 0 < weightOf n := by
  unfold weightOf
  split_ifs <;> norm_num

/-- Every quote kept by the filter has a positive extracted price and the
weight the table assigns to its source. -/
theorem validQuotes_mem {rs : List (String × ProviderResponse)} {q : ValidQuote}
    (h : q ∈ validQuotes rs) : 0 < q.price ∧ q.weight = weightOf q.source := by
  induction rs with
  | nil => simp [validQuotes] at h
  | cons hd tl ih =>
    obtain ⟨n, r⟩ := hd
    cases r with
    | exc => rw [validQuotes] at h; exact ih h
    | nonDict => rw [validQuotes] at h; exact ih h
    | dict fs =>
      rw [validQuotes] at h
      by_cases hp : extractPrice n fs > 0
      · rw [if_pos hp] at h
        rcases List.mem_cons.mp h with heq | hm
        · subst heq; exact ⟨hp, rfl⟩
        · exact ih hm
      · rw [if_neg hp] at h; exact ih h

theorem validQuotes_append (l₁ l₂ : List (String × ProviderResponse)) :
    validQuotes (l₁ ++ l₂) = validQuotes l₁ ++ validQuotes l₂ := by
  induction l₁ with
  | nil => simp [validQuotes]
  | cons hd tl ih =>
    obtain ⟨n, r⟩ := hd
    cases r with
    | exc => simpa [validQuotes] using ih
    | nonDict => simpa [validQuotes] using ih
    | dict fs =>
      simp only [List.cons_append, validQuotes]
      split_ifs <;> simp [ih]

theorem mergeQuotes_status_ne_error {vq : List ValidQuote} (h : vq ≠ []) :
    cStatus (mergeQuotes vq) ≠ "ERROR" := by
  simp only [mergeQuotes, if_neg h, cStatus]
  split_ifs <;> decide

theorem mergeQuotes_singleton (q : ValidQuote) (hp : 0 < q.price) (hw : q.weight ≠ 0) :
    mergeQuotes [q] =
      .ok (round2 q.price) "SINGLE_SOURCE" 0 [(q.source, q.price)] (some q.source) q.data := by
  simp only [mergeQuotes]
  rw [if_neg (by simp)]
  simp only [List.map_cons, List.map_nil, minQ, maxQ, List.foldl_nil, List.sum_cons,
    List.sum_nil, primaryOf, List.foldl_cons, Option.getD_some, Option.map_some,
    List.length_cons, List.length_nil]
  rw [if_pos hp]
  rw [if_neg (by norm_num)]
  rw [sub_self, zero_div, zero_mul, round2_zero]
  rw [add_zero, add_zero, mul_div_assoc, div_self hw, mul_one]
  rfl

/-! ### Claim C1 -/

/-- C1: `GetConsensusPrice` returns status ERROR with price 0.0 exactly when no
adapter yielded a valid positive price; an adapter that raises an exception or
returns a non-dict is excluded from the merge without affecting the result, so
with at least one valid price the status is never ERROR. -/
theorem consensus_error_iff_no_valid_quote
    (rs rs₁ rs₂ : List (String × ProviderResponse)) (n : String) :
    ((cStatus (fetchConsensusInternal rs) = "ERROR" ∧ cPrice (fetchConsensusInternal rs) = 0)
       ↔ validQuotes rs = []) ∧
    fetchConsensusInternal (rs₁ ++ (n, ProviderResponse.exc) :: rs₂) =
      fetchConsensusInternal (rs₁ ++ rs₂) ∧
    fetchConsensusInternal (rs₁ ++ (n, ProviderResponse.nonDict) :: rs₂) =
      fetchConsensusInternal (rs₁ ++ rs₂) := by
  refine ⟨⟨?_, ?_⟩, ?_, ?_⟩
  · rintro ⟨hs, -⟩
    by_contra hv
    exact mergeQuotes_status_ne_error hv hs
  · intro hv
    simp [fetchConsensusInternal, hv, mergeQuotes, cStatus, cPrice]
  · unfold fetchConsensusInternal
    rw [validQuotes_append, validQuotes_append]
    rfl
  · unfold fetchConsensusInternal
    rw [validQuotes_append, validQuotes_append]
    rfl

/-! ### Claim C2 -/

/-- C2 (amended): with at least one valid quote, the returned price is the
weighted average `Σ(price·weight)/Σweight` rounded to 2 decimal places, the
weights being those of the fixed table (default 0.5 for unrecognized
sources); the raw weighted average itself is in general not returned. -/
theorem consensus_price_weighted_average_rounded
    (rs : List (String × ProviderResponse)) (h : validQuotes rs ≠ []) :
    cPrice (fetchConsensusInternal rs) = round2 (specWeightedAverage rs) ∧
    ∀ q ∈ validQuotes rs, q.weight = weightOf q.source ∧ 0 < q.price := by
  constructor
  · simp only [fetchConsensusInternal, mergeQuotes, if_neg h, cPrice, specWeightedAverage]
  · intro q hq
    exact ⟨(validQuotes_mem hq).2, (validQuotes_mem hq).1⟩

def rsW : List (String × ProviderResponse) :=
  [("GoogleFinance", .dict [("price", 10)])]

theorem consensus_price_weighted_average_rounded_witness :
    validQuotes rsW ≠ [] ∧
    (cPrice (fetchConsensusInternal rsW) = round2 (specWeightedAverage rsW) ∧
     ∀ q ∈ validQuotes rsW, q.weight = weightOf q.source ∧ 0 < q.price) := by
  have h : validQuotes rsW ≠ [] := by
    simp only [rsW, validQuotes, extractPrice, dictGet, weightOf, String.reduceEq]
    norm_num
  exact ⟨h, consensus_price_weighted_average_rounded rsW h⟩

/-- Input on which the returned price differs from the exact weighted average:
NSE price 100 with weight 1 and Yahoo price 100.1 with weight 0.8. -/
def rsC2 : List (String × ProviderResponse) :=
  [("NSE_Lib", .dict [("LastPrice", 100)]),
   ("YahooFinance", .dict [("currentPrice", 1001/10)])]

theorem validQuotes_rsC2 : validQuotes rsC2 =
    [⟨"NSE_Lib", 100, 1, [("LastPrice", 100)]⟩,
     ⟨"YahooFinance", 1001/10, 4/5, [("currentPrice", 1001/10)]⟩] := by
  simp only [rsC2, validQuotes, extractPrice, dictGet, weightOf, String.reduceEq]
  norm_num

/-- C2 counterexample: on `rsC2` the weighted average is 4502/45 = 100.0444…,
but the returned price is the rounded 100.04, so the claimed exact equality
fails. -/
theorem consensus_price_rounding_counterexample :
    cPrice (fetchConsensusInternal rsC2) = 2501/25 ∧
    specWeightedAverage rsC2 = 4502/45 ∧
    ((2501:ℚ)/25) ≠ 4502/45 := by
  have havg : specWeightedAverage rsC2 = 4502/45 := by
    rw [specWeightedAverage, validQuotes_rsC2]
    norm_num
  refine ⟨?_, havg, by norm_num⟩
  rw [fetchConsensusInternal, validQuotes_rsC2]
  simp only [mergeQuotes]
  rw [if_neg (by simp)]
  simp only [cPrice, List.map_cons, List.map_nil, List.sum_cons, List.sum_nil]
  rw [show ((100:ℚ) * 1 + (1001/10 * (4/5) + 0)) / (1 + (4/5 + 0)) = 4502/45 by norm_num]
  unfold round2
  rw [pyRound_of_lt_half (n := 10004) (by norm_num) (by norm_num)]
  norm_num

/-! ### Claim C3 -/

/-- C3 (amended): with exactly one valid quote the status is SINGLE_SOURCE,
the returned price is that quote rounded to 2 decimal places (hence equal to
the quote exactly only when the quote has at most 2 decimals), and
`variance_pct` is 0; with zero valid quotes the ERROR dict carries no
`variance_pct` field at all. -/
theorem single_source_status_price
    (rs : List (String × ProviderResponse)) (q : ValidQuote)
    (h : validQuotes rs = [q]) :
    cStatus (fetchConsensusInternal rs) = "SINGLE_SOURCE" ∧
    cPrice (fetchConsensusInternal rs) = round2 q.price ∧
    cVariancePct (fetchConsensusInternal rs) = some 0 ∧
    ∀ rs' : List (String × ProviderResponse), validQuotes rs' = [] →
      cVariancePct (fetchConsensusInternal rs') = none := by
  have hq : q ∈ validQuotes rs := by rw [h]; exact List.mem_singleton.mpr rfl
  have hp := (validQuotes_mem hq).1
  have hw : q.weight ≠ 0 := by
    have := weightOf_pos q.source
    rw [(validQuotes_mem hq).2]
    linarith
  rw [fetchConsensusInternal, h, mergeQuotes_singleton q hp hw]
  refine ⟨rfl, rfl, rfl, ?_⟩
  intro rs' h'
  rw [fetchConsensusInternal, h']
  rfl

def rsS : List (String × ProviderResponse) :=
  [("NSE_Lib", .dict [("LastPrice", 250)])]

theorem single_source_status_price_witness :
    validQuotes rsS = [⟨"NSE_Lib", 250, 1, [("LastPrice", 250)]⟩] ∧
    (cStatus (fetchConsensusInternal rsS) = "SINGLE_SOURCE" ∧
     cPrice (fetchConsensusInternal rsS) =
       round2 (ValidQuote.mk "NSE_Lib" 250 1 [("LastPrice", 250)]).price ∧
     cVariancePct (fetchConsensusInternal rsS) = some 0 ∧
     ∀ rs' : List (String × ProviderResponse), validQuotes rs' = [] →
       cVariancePct (fetchConsensusInternal rs') = none) := by
  have h : validQuotes rsS = [⟨"NSE_Lib", 250, 1, [("LastPrice", 250)]⟩] := by
    simp only [rsS, validQuotes, extractPrice, dictGet, weightOf, String.reduceEq]
    norm_num
  exact ⟨h, single_source_status_price rsS _ h⟩

/-- Input with a single valid quote whose price has 3 decimals. -/
def rsC3 : List (String × ProviderResponse) :=
  [("NSE_Lib", .dict [("LastPrice", 100123/1000)])]

/-- C3 counterexample: a single valid quote of 100.123 is returned as 100.12,
so the consensus price does not equal the quote exactly. -/
theorem single_source_exact_price_counterexample :
    validQuotes rsC3 = [⟨"NSE_Lib", 100123/1000, 1, [("LastPrice", 100123/1000)]⟩] ∧
    cStatus (fetchConsensusInternal rsC3) = "SINGLE_SOURCE" ∧
    cPrice (fetchConsensusInternal rsC3) = 2503/25 ∧
    ((2503:ℚ)/25) ≠ 100123/1000 := by
  have h : validQuotes rsC3 = [⟨"NSE_Lib", 100123/1000, 1, [("LastPrice", 100123/1000)]⟩] := by
    simp only [rsC3, validQuotes, extractPrice, dictGet, weightOf, String.reduceEq]
    norm_num
  refine ⟨h, ?_, ?_, by norm_num⟩
  · rw [fetchConsensusInternal, h, mergeQuotes_singleton _ (by norm_num) (by norm_num)]
    rfl
  · rw [fetchConsensusInternal, h, mergeQuotes_singleton _ (by norm_num) (by norm_num)]
    show round2 (100123/1000) = 2503/25
    unfold round2
    rw [pyRound_of_lt_half (n := 10012) (by norm_num) (by norm_num)]
    norm_num

/-! ### Claim C9 -/

/-- The worked example of the spec: NSE 2450.00 (weight 1.0), Yahoo 2454.00
(weight 0.8), Google 2448.00 (weight 0.6). -/
def rs9 : List (String × ProviderResponse) :=
  [("NSE_Lib", .dict [("LastPrice", 2450)]),
   ("YahooFinance", .dict [("currentPrice", 2454)]),
   ("GoogleFinance", .dict [("price", 2448)])]

theorem validQuotes_rs9 : validQuotes rs9 =
    [⟨"NSE_Lib", 2450, 1, [("LastPrice", 2450)]⟩,
     ⟨"YahooFinance", 2454, 4/5, [("currentPrice", 2454)]⟩,
     ⟨"GoogleFinance", 2448, 3/5, [("price", 2448)]⟩] := by
  simp only [rs9, validQuotes, extractPrice, dictGet, weightOf, String.reduceEq]
  norm_num

theorem fetch_rs9_eval : fetchConsensusInternal rs9 =
    .ok (245083/100) "VERIFIED" (1/4)
      [("NSE_Lib", 2450), ("YahooFinance", 2454), ("GoogleFinance", 2448)]
      (some "NSE_Lib") [("LastPrice", 2450)] := by
  have hp : round2 ((14705:ℚ)/6) = 245083/100 := by
    unfold round2
    rw [pyRound_of_lt_half (n := 245083) (by norm_num) (by norm_num)]
    norm_num
  have hv : round2 ((25:ℚ)/102) = 1/4 := by
    unfold round2
    rw [pyRound_of_half_lt (n := 24) (by norm_num) (by norm_num) (by norm_num)]
    norm_num
  rw [fetchConsensusInternal, validQuotes_rs9]
  simp only [mergeQuotes, minQ, maxQ, primaryOf, List.map_cons, List.map_nil,
    List.foldl_cons, List.foldl_nil, List.sum_cons, List.sum_nil]
  rw [if_neg (by simp)]
  norm_num [min_def, max_def]
  exact ⟨hp, hv⟩

/-- C9 (amended): on the example quotes the weighted average is
(2450·1 + 2454·0.8 + 2448·0.6)/2.4 = 2450.8333…, returned rounded as price
2450.83; the variance is (2454−2448)/2448 = 0.2451% and is returned as
`variance_pct` 0.25; the status is VERIFIED. -/
theorem consensus_example_result :
    fetchConsensusInternal rs9 =
      .ok (245083/100) "VERIFIED" (1/4)
        [("NSE_Lib", 2450), ("YahooFinance", 2454), ("GoogleFinance", 2448)]
        (some "NSE_Lib") [("LastPrice", 2450)] ∧
    specWeightedAverage rs9 = 14705/6 := by
  refine ⟨fetch_rs9_eval, ?_⟩
  rw [specWeightedAverage, validQuotes_rs9]
  norm_num

/-- C9 counterexample: the example's claimed weighted price 2450.67 is the
unweighted mean of the three quotes; the code returns 2450.83. -/
theorem consensus_example_price_counterexample :
    cPrice (fetchConsensusInternal rs9) = 245083/100 ∧
    ((245083:ℚ)/100) ≠ 245067/100 := by
  constructor
  · rw [fetch_rs9_eval]
    rfl
  · norm_num

/-! ### Technical Analyzer (`services/analysis/technical_analyzer.py`)

`TechnicalAnalyzer.analyze` guards on fewer than 50 bars.  For a well-formed
history of at least 50 bars every sub-computation succeeds, but the return
dict at lines 56-66 references the local name `sr_data`, which is never
assigned anywhere in `analyze` (`_calc_support_resistance` exists but is never
called).  Building the dict therefore raises `NameError: name 'sr_data' is
not defined`, which the `except Exception` at line 68 converts into
`{"error": str(e)}`.  Consequently `analyze` can only ever produce an error
dict, never the indicator set. -/

/-- One OHLCV bar, ascending by date, externally supplied. -/
structure Bar where
  date : String
  openP : ℚ
  high : ℚ
  low : ℚ
  close : ℚ
  volume : ℚ
deriving DecidableEq, Repr

/-- Result of `TechnicalAnalyzer.analyze`: either the error dict
`{"error": msg}` or the full indicator dict of lines 56-66. -/
inductive TAResult where
  | err (msg : String)
  | indicators (currentPrice : ℚ) (ma20Signal ma50Signal ma200Signal : String)
      (rsiSignal macdSignal bbSignal volumeSignal trendStatus overallSignal : String)
deriving DecidableEq, Repr

/-- Guard message of line 19. -/
def taInsufficientMsg : String := "Insufficient data for technical analysis"

/-- The `str(e)` of the NameError raised at the return dict (line 62); the
Python text wraps sr_data in single quotation marks. -/
def taNameErrorMsg : String := "name sr_data is not defined"

/-- `TechnicalAnalyzer.analyze` on a well-formed history: fewer than 50 bars
hits the guard of line 18; otherwise the computation reaches the return dict
of line 56 and dies on the unbound `sr_data` at line 62, caught by the
`except` at line 68. -/
def technicalAnalyze (history : List Bar) : TAResult :=
  if history.length < 50 then .err taInsufficientMsg
  else .err taNameErrorMsg

/-- Is the result the error dict? -/
def TAResult.isErr : TAResult → Bool
  | .err _ => true
  | .indicators _ _ _ _ _ _ _ _ _ _ => false

/-- The last `k` elements of a list (the tail of the rolling window). -/
def lastN (k : ℕ) (l : List ℚ) : List ℚ := l.drop (l.length - k)

/-- Moving-average block of `_calc_moving_averages` for one period: with at
least `period` bars the last rolling mean is the mean of the last `period`
closes, stored rounded to 2 decimals with an ABOVE/BELOW flag against the
unrounded mean; otherwise `None` and signal `"N/A"`. -/
def maFor (period : ℕ) (closes : List ℚ) (current : ℚ) : Option ℚ × String :=
  if period ≤ closes.length then
    ((some (round2 ((lastN period closes).sum / period))),
     if current > (lastN period closes).sum / period then "ABOVE" else "BELOW")
  else (none, "N/A")

/-- Output of `_calc_moving_averages`: the `mas` dict for periods 20/50/200. -/
structure MAData where
  ma20 : Option ℚ
  ma20Signal : String
  ma50 : Option ℚ
  ma50Signal : String
  ma200 : Option ℚ
  ma200Signal : String
deriving DecidableEq, Repr

/-- `_calc_moving_averages` (lines 72-88). -/
def calcMovingAverages (closes : List ℚ) (current : ℚ) : MAData :=
  ⟨(maFor 20 closes current).1, (maFor 20 closes current).2,
   (maFor 50 closes current).1, (maFor 50 closes current).2,
   (maFor 200 closes current).1, (maFor 200 closes current).2⟩

/-- A concrete valid history of 49 bars. -/
def h49 : List Bar := List.replicate 49 ⟨"", 100, 101, 99, 100, 1000⟩

/-- A concrete valid history of 50 bars. -/
def h50 : List Bar := List.replicate 50 ⟨"", 100, 101, 99, 100, 1000⟩

/-! ### Claim C4 -/

/-- C4 (code bug): a 49-bar history is rejected with the insufficient-data
marker and no partial result, as claimed; but a valid 50-bar history does NOT
produce the indicator set: the unbound `sr_data` makes `analyze` return the
NameError error dict, and no input whatsoever can produce the indicator
constructor.  The moving-average helper itself would indeed flag MA200 as
"N/A" at 50 bars. -/
theorem technical_analyzer_never_returns_indicators :
    technicalAnalyze h49 = .err taInsufficientMsg ∧
    technicalAnalyze h50 = .err taNameErrorMsg ∧
    (∀ history : List Bar, (technicalAnalyze history).isErr = true) ∧
    (calcMovingAverages (h50.map (·.close)) 100).ma200Signal = "N/A" ∧
    (calcMovingAverages (h50.map (·.close)) 100).ma50Signal ≠ "N/A" := by
  refine ⟨?_, ?_, ?_, ?_, ?_⟩
  · rw [technicalAnalyze, if_pos (by rw [h49, List.length_replicate]; omega)]
  · rw [technicalAnalyze, if_neg (by rw [h50, List.length_replicate]; omega)]
  · intro history
    rw [technicalAnalyze]
    split_ifs <;> rfl
  · rw [calcMovingAverages]
    simp only [maFor]
    rw [if_neg (by rw [h50, List.map_replicate, List.length_replicate]; omega)]
  · rw [calcMovingAverages]
    simp only [maFor]
    rw [if_pos (by rw [h50, List.map_replicate, List.length_replicate])]
    split_ifs <;> decide

/-! ### Loosely-typed fundamentals values

Fundamentals dicts carry values on which the code calls `float(...)`.  A value
is either numeric (`num`) or a truthy non-numeric value (`bad`, e.g. a
non-numeric string) on which `float` raises; the raise is modelled by
`Except.error`.  Python truthiness: missing keys and numeric zero are falsy,
`bad` values are truthy. -/

inductive PyV where
  | num (q : ℚ)
  | bad
deriving DecidableEq, Repr

/-- Python `float(v)`. -/
def pyFloat : PyV → Except String ℚ
  | .num q => .ok q
  | .bad => .error "could not convert value to float"

/-- Python truthiness of a value. -/
def truthy : PyV → Bool
  | .num q => decide (q ≠ 0)
  | .bad => true

/-- Python truthiness of `d.get(k)` (missing key is `None`, falsy). -/
def truthyOpt : Option PyV → Bool
  | none => false
  | some v => truthy v

/-- A fundamentals dict. -/
def Fund := List (String × PyV)

/-- Python `d.get(k)`. -/
def fget : Fund → String → Option PyV
  | [], _ => none
  | (k, v) :: rest, key => if k = key then some v else fget rest key

/-- Python `d.get(k, default)`. -/
def fgetD (f : Fund) (key : String) (d : PyV) : PyV := (fget f key).getD d

/-- Case split on a fallible Python computation: an exception propagates to
the enclosing `except` handler, a value continues the computation. -/
def exceptStep {α β : Type} (x : Except String α) (err : String → β) (g : α → β) : β :=
  match x with
  | .error e => err e
  | .ok v => g v

theorem exceptStep_ok {α β : Type} (v : α) (err : String → β) (g : α → β) :
    exceptStep (.ok v) err g = g v := rfl

theorem exceptStep_error {α β : Type} (e : String) (err : String → β) (g : α → β) :
    exceptStep (.error e) err g = err e := rfl

theorem exceptStep_elim {α β : Type} {P : β → Prop} (x : Except String α)
    (err : String → β) (g : α → β) (he : ∀ e, P (err e)) (hg : ∀ v, P (g v)) :
    P (exceptStep x err g) := by
  cases x with
  | error e => exact he e
  | ok v => exact hg v

/-! ### Fundamental Analyzer (`services/analysis/fundamental_analyzer.py`) -/

/-- PE band bonus of `_calc_health_score`. -/
def healthPe (pe : ℚ) : ℤ :=
  if 0 < pe ∧ pe < 15 then 15 else if 15 ≤ pe ∧ pe < 25 then 10
  else if 25 ≤ pe ∧ pe < 40 then 5 else 0

/-- PB band bonus of `_calc_health_score`. -/
def healthPb (pb : ℚ) : ℤ :=
  if 0 < pb ∧ pb < 2 then 10 else if 2 ≤ pb ∧ pb < 4 then 5 else 0

/-- Debt band bonus of `_calc_health_score`. -/
def healthDe (de : ℚ) : ℤ :=
  if de < 1/2 then 15 else if de < 1 then 10 else if de < 2 then 5 else 0

/-- ROE band bonus of `_calc_health_score`. -/
def healthRoe (roe : ℚ) : ℤ :=
  if roe > 20 then 10 else if roe > 15 then 7 else if roe > 10 then 4 else 0

/-- Liquidity bonus of `_calc_health_score`. -/
def healthLiq (cr : ℚ) : ℤ :=
  if cr > 3/2 then 10 else if cr ≥ 1 then 5 else 0

/-- `_calc_health_score` (lines 62-102): baseline 40 plus bounded per-bucket
bonuses, clamped to [0, 100]; the margin argument is accepted but unused, as
in the source. -/
def calcHealthScore (pe pb de roe _margin cr : ℚ) : ℤ :=
  min 100 (max 0 (40 + healthPe pe + healthPb pb + healthDe de + healthRoe roe + healthLiq cr))

/-- `_assess_valuation` (lines 104-123).  The forward-PE note evaluates
`float(forward_pe)` only when the raw value is truthy, so a truthy non-numeric
value raises. -/
def assessValuation (pe pb : ℚ) (fpe : Option PyV) : Except String (String × String) :=
  let outlookE : Except String String :=
    if truthyOpt fpe then
      exceptStep (pyFloat (fpe.getD (.num 0))) .error fun x =>
        .ok (if x < pe then "Earnings expected to improve" else "Neutral earnings outlook")
    else .ok "Neutral earnings outlook"
  exceptStep outlookE .error fun outlook =>
    if pe < 15 ∧ pb < 2 then
      .ok ("UNDERVALUED", "Trading below historical averages. " ++ outlook ++ ".")
    else if pe > 40 ∨ pb > 5 then
      .ok ("OVERVALUED", "Premium valuation noted. " ++ outlook ++ ".")
    else .ok ("FAIR", "Reasonably valued compared to peers. " ++ outlook ++ ".")

/-- `_assess_financial_health` (lines 125-137). -/
def assessFinancialHealth (de roe margin cr : ℚ) : String × String :=
  if de < 1/2 ∧ roe > 15 ∧ margin > 10 ∧ cr ≥ 1 then
    ("STRONG", "Excellent financial position with good liquidity")
  else if de > 2 ∨ roe < 5 ∨ margin < 0 ∨ (cr < 4/5 ∧ cr > 0) then
    ("WEAK", "Financial concerns present, check debt and liquidity")
  else ("MODERATE", "Stable financial health across key metrics")

/-- `_assess_growth` (lines 139-154). -/
def assessGrowth (rev : ℚ) : String × String :=
  if rev > 20 then ("HIGH", "Strong growth trajectory")
  else if rev > 10 then ("MODERATE", "Steady growth")
  else if rev > 0 then ("LOW", "Slow growth")
  else ("DECLINING", "Revenue contraction")

/-- The successful return dict of `FundamentalAnalyzer.analyze`
(`key_metrics` are echoes of the extracted inputs and are omitted). -/
structure FAOk where
  healthScore : ℤ
  valuationLevel : String
  valuationDesc : String
  healthLevel : String
  healthDesc : String
  growthLevel : String
  growthDesc : String
deriving DecidableEq, Repr

/-- Result of `FundamentalAnalyzer.analyze`: `{"error": str(e)}` or the full
dict. -/
inductive FAResult where
  | err (msg : String)
  | ok (r : FAOk)
deriving DecidableEq, Repr

/-- `FundamentalAnalyzer.analyze` (lines 11-60): extract the ratios in source
order (each `float(...)` may raise), scale debt by 1/100 and ROE, margin,
revenue growth by 100, compute the health score and the three buckets; the
`key_metrics` block additionally evaluates `float(f.get("forwardPE", 0))`.
Any exception yields the error dict. -/
def fundamentalAnalyze (f : Fund) : FAResult :=
  exceptStep (pyFloat (fgetD f "trailingPE" (.num 0))) .err fun pe =>
  exceptStep (pyFloat (fgetD f "priceToBook" (.num 0))) .err fun pb =>
  exceptStep (pyFloat (fgetD f "debtToEquity" (.num 0))) .err fun de0 =>
  exceptStep (pyFloat (fgetD f "returnOnEquity" (.num 0))) .err fun roe0 =>
  exceptStep (pyFloat (fgetD f "profitMargin" (.num 0))) .err fun margin0 =>
  exceptStep (pyFloat (fgetD f "revenueGrowth" (.num 0))) .err fun rev0 =>
  exceptStep (pyFloat (fgetD f "currentRatio" (.num 0))) .err fun cr =>
  exceptStep (pyFloat (fgetD f "quickRatio" (.num 0))) .err fun _qr =>
  exceptStep (assessValuation pe pb (fget f "forwardPE")) .err fun vp =>
  exceptStep (pyFloat (fgetD f "forwardPE" (.num 0))) .err fun _fpe =>
  FAResult.ok
    { healthScore := calcHealthScore pe pb (de0 / 100) (roe0 * 100) (margin0 * 100) cr
      valuationLevel := vp.1
      valuationDesc := vp.2
      healthLevel := (assessFinancialHealth (de0 / 100) (roe0 * 100) (margin0 * 100) cr).1
      healthDesc := (assessFinancialHealth (de0 / 100) (roe0 * 100) (margin0 * 100) cr).2
      growthLevel := (assessGrowth (rev0 * 100)).1
      growthDesc := (assessGrowth (rev0 * 100)).2 }

/-- The `valuation.level` field, when the analysis succeeded. -/
def faValuationLevel : FAResult → Option String
  | .err _ => none
  | .ok r => some r.valuationLevel

/-- The `financial_health.level` field, when the analysis succeeded. -/
def faHealthLevel : FAResult → Option String
  | .err _ => none
  | .ok r => some r.healthLevel

/-! ### Claim C7 -/

/-- The worked fundamentals example of the spec: PE 12, PB 1.5, D/E 0.3
(the `debtToEquity` field is a percentage, divided by 100 on extraction),
ROE 0.22, profit margin 0.15.  No current ratio is supplied. -/
def f7 : Fund :=
  [("trailingPE", .num 12), ("priceToBook", .num (3/2)), ("debtToEquity", .num 30),
   ("returnOnEquity", .num (11/50)), ("profitMargin", .num (3/20))]

/-- The same example with a current ratio of 1.5 added. -/
def f7cr : Fund :=
  ("currentRatio", PyV.num (3/2)) :: f7

theorem fa_f7_eval : fundamentalAnalyze f7 = .ok
    { healthScore := 90
      valuationLevel := "UNDERVALUED"
      valuationDesc := "Trading below historical averages. Neutral earnings outlook."
      healthLevel := "MODERATE"
      healthDesc := "Stable financial health across key metrics"
      growthLevel := "DECLINING"
      growthDesc := "Revenue contraction" } := by
  simp [fundamentalAnalyze, f7, fgetD, fget, pyFloat, exceptStep_ok, assessValuation,
    truthyOpt, truthy, assessGrowth, assessFinancialHealth, calcHealthScore,
    healthPe, healthPb, healthDe, healthRoe, healthLiq]
  norm_num [exceptStep_ok, min_def, max_def]

theorem fa_f7cr_eval : fundamentalAnalyze f7cr = .ok
    { healthScore := 95
      valuationLevel := "UNDERVALUED"
      valuationDesc := "Trading below historical averages. Neutral earnings outlook."
      healthLevel := "STRONG"
      healthDesc := "Excellent financial position with good liquidity"
      growthLevel := "DECLINING"
      growthDesc := "Revenue contraction" } := by
  simp [fundamentalAnalyze, f7cr, f7, fgetD, fget, pyFloat, exceptStep_ok, assessValuation,
    truthyOpt, truthy, assessGrowth, assessFinancialHealth, calcHealthScore,
    healthPe, healthPb, healthDe, healthRoe, healthLiq]
  norm_num [exceptStep_ok, min_def, max_def]

/-- C7 counterexample: on the example input the valuation level is
UNDERVALUED but the financial-health level is MODERATE, not STRONG: the
missing `currentRatio` defaults to 0 and STRONG requires `current_ratio ≥
1.0`. -/
theorem fundamental_example_not_strong_counterexample :
    faValuationLevel (fundamentalAnalyze f7) = some "UNDERVALUED" ∧
    faHealthLevel (fundamentalAnalyze f7) = some "MODERATE" ∧
    faHealthLevel (fundamentalAnalyze f7) ≠ some "STRONG" := by
  rw [fa_f7_eval]
  exact ⟨rfl, rfl, by decide⟩

/-- C7 (amended): on the example input the analyzer returns valuation
UNDERVALUED and financial health MODERATE (health score 90); STRONG
additionally requires a current ratio of at least 1.0, and indeed adding
`currentRatio` 1.5 to the same input yields STRONG (health score 95). -/
theorem fundamental_example_undervalued_moderate :
    faValuationLevel (fundamentalAnalyze f7) = some "UNDERVALUED" ∧
    faHealthLevel (fundamentalAnalyze f7) = some "MODERATE" ∧
    faHealthLevel (fundamentalAnalyze f7cr) = some "STRONG" := by
  rw [fa_f7_eval, fa_f7cr_eval]
  exact ⟨rfl, rfl, rfl⟩

/-! ### Stability / Timing / Risk scorers (`services/scoring/`)

Each scorer receives `market_data` with a `history` list and a `fundamentals`
dict.  The annualized volatility `np.std(returns) * np.sqrt(252) * 100`
involves a square root, which has no exact rational value; it enters the
embedding as an explicit argument `vol` (any standard deviation is
non-negative, so theorems may assume `0 ≤ vol`).  All other arithmetic is
exact.  An exception anywhere inside a scorer is caught by its `except`
handler, which returns the scorer's neutral default dict. -/

/-- The `market_data` argument: its `history` list and `fundamentals` dict,
as read by `.get` with empty defaults. -/
structure MarketData where
  history : List Bar
  fundamentals : Fund

/-- Stability volatility component (`_calc_volatility_score`): default 15 for
short histories, otherwise `round(max(0, min(30, 30*(1-(vol-10)/40))))`. -/
def stabVolScore (history : List Bar) (vol : ℚ) : ℤ :=
  if history.length < 20 then 15
  else pyRound (max 0 (min 30 (30 * (1 - (vol - 10) / 40))))

/-- Debt band of `_calc_fundamental_score`. -/
def stabDeBonus (de : ℚ) : ℤ :=
  if de < 1/2 then 10 else if de < 1 then 7 else if de < 2 then 4 else 0

/-- Current-ratio band of `_calc_fundamental_score`. -/
def stabCrBonus (cr : ℚ) : ℤ :=
  if cr > 2 then 10 else if cr > 3/2 then 7 else if cr > 1 then 5 else 0

/-- ROE band of `_calc_fundamental_score`. -/
def stabRoeBonus (roe : ℚ) : ℤ :=
  if roe > 20 then 10 else if roe > 15 then 8 else if roe > 10 then 5 else 0

/-- Debt extraction of `_calc_fundamental_score`:
`float(f.get("debtToEquity", 100)) / 100 if f.get("debtToEquity") else 1.0`
(missing or falsy value gives 1.0; a truthy non-numeric value raises). -/
def stabDe (f : Fund) : Except String ℚ :=
  if truthyOpt (fget f "debtToEquity") then
    exceptStep (pyFloat (fgetD f "debtToEquity" (.num 100))) .error fun v => .ok (v / 100)
  else .ok 1

/-- `_calc_fundamental_score` (30 pts): debt + current ratio + ROE bands. -/
def stabFundScore (f : Fund) : Except String ℤ :=
  exceptStep (stabDe f) .error fun de =>
  exceptStep (pyFloat (fgetD f "currentRatio" (.num 1))) .error fun cr =>
  exceptStep (pyFloat (fgetD f "returnOnEquity" (.num 0))) .error fun roe0 =>
  .ok (stabDeBonus de + stabCrBonus cr + stabRoeBonus (roe0 * 100))

/-- Market-cap band of `_calc_market_score`. -/
def stabMcapBonus (mc : ℚ) : ℤ :=
  if mc > 1000000000000 then 10 else if mc > 500000000000 then 7
  else if mc > 100000000000 then 4 else 0

/-- `_calc_market_score` (20 pts nominal): market-cap band plus the fixed
5-point liquidity default of line 101. -/
def stabMktScore (f : Fund) : Except String ℤ :=
  exceptStep (pyFloat (fgetD f "marketCap" (.num 0))) .error fun mc =>
  .ok (stabMcapBonus mc + 5)

/-- `_calc_growth_score` (20 pts nominal): default 10 plus 5 when revenue
growth exceeds 0.15. -/
def stabGrowthScore (f : Fund) : Except String ℤ :=
  exceptStep (pyFloat (fgetD f "revenueGrowth" (.num 0))) .error fun rg =>
  .ok (10 + if rg > 3/20 then 5 else 0)

/-- `_interpret_score`. -/
def interpretStability (t : ℤ) : String :=
  if t ≥ 80 then "HIGH_STABILITY" else if t ≥ 60 then "MEDIUM_STABILITY"
  else if t ≥ 40 then "MODERATE_STABILITY" else "LOW_STABILITY"

/-- Sum of the four stability components; only the fundamentals-based ones
can raise (the volatility component is pure in `vol`). -/
def stabilityTotal (md : MarketData) (vol : ℚ) : Except String ℤ :=
  exceptStep (stabFundScore md.fundamentals) .error fun f =>
  exceptStep (stabMktScore md.fundamentals) .error fun m =>
  exceptStep (stabGrowthScore md.fundamentals) .error fun g =>
  .ok (stabVolScore md.history vol + f + m + g)

/-- Result dict of `StabilityScoreEngine.calculate_score`; the exception
handler of lines 42-44 returns score 0 with an error message (the `round` on
the total is the identity, all components being integers). -/
structure StabilityResult where
  score : ℤ
  interpretation : Option String
  errMsg : Option String
deriving DecidableEq, Repr

/-- `StabilityScoreEngine.calculate_score`. -/
def stabilityCalculateScore (md : MarketData) (vol : ℚ) : StabilityResult :=
  exceptStep (stabilityTotal md vol) (fun e => ⟨0, none, some e⟩)
    (fun t => ⟨t, some (interpretStability t), none⟩)

/-- The close column. -/
def closesOf (history : List Bar) : List ℚ := history.map (·.close)

/-- Pandas `diff`: consecutive close-to-close changes. -/
def deltasOf (l : List ℚ) : List ℚ := List.zipWith (fun a b => a - b) l.tail l

/-- Timing technical component (`_calc_technicals`, 40 pts): default 20 under
200 bars; otherwise price-versus-MA50/MA200 and an RSI(14) zone bonus,
clamped to [0, 40].  The RSI uses the rolling means of the last 14 gains and
losses; when every loss is zero pandas yields RSI 100 via division by
infinity, while rational division by zero makes the `rs` term 0 — either way
the clamp keeps the component in range. -/
def timingTechScore (history : List Bar) : ℤ :=
  if history.length < 200 then 20
  else
    let closes := closesOf history
    let current := closes.getLast?.getD 0
    let ma50 := (lastN 50 closes).sum / 50
    let ma200 := (lastN 200 closes).sum / 200
    let ds := deltasOf closes
    let avgGain := ((lastN 14 ds).map fun d => if d > 0 then d else 0).sum / 14
    let avgLoss := ((lastN 14 ds).map fun d => if d < 0 then -d else 0).sum / 14
    let rsi := 100 - 100 / (1 + avgGain / avgLoss)
    let s := (if current > ma50 then 15 else 0) + (if current > ma200 then 15 else 0) +
      (if 30 ≤ rsi ∧ rsi ≤ 50 then 10 else if rsi < 30 then 10 else if rsi > 70 then -5 else 0)
    min 40 (max 0 s)

/-- PE band of `_calc_valuation`. -/
def timingPeBonus (pe : ℚ) : ℤ :=
  if 0 < pe ∧ pe < 20 then 10 else if pe > 50 then -5 else 0

/-- PB band of `_calc_valuation`. -/
def timingPbBonus (pb : ℚ) : ℤ :=
  if 0 < pb ∧ pb < 3 then 5 else 0

/-- `_calc_valuation` (30 pts): neutral 15 plus PE/PB bands, clamped. -/
def timingValScore (f : Fund) : Except String ℤ :=
  exceptStep (pyFloat (fgetD f "trailingPE" (.num 0))) .error fun pe =>
  exceptStep (pyFloat (fgetD f "priceToBook" (.num 0))) .error fun pb =>
  .ok (min 30 (max 0 (15 + timingPeBonus pe + timingPbBonus pb)))

/-- `_calc_momentum` (20 pts): default 10 under 30 bars, else 10 plus 10 for
a positive 1-month return (`close[-1]` against `close[-20]`). -/
def timingMomScore (history : List Bar) : ℤ :=
  if history.length < 30 then 10
  else
    let closes := closesOf history
    let base := closes.getD (closes.length - 20) 0
    10 + (if (closes.getLast?.getD 0 - base) / base > 0 then 10 else 0)

/-- `_get_signal`. -/
def timingSignalOf (t : ℤ) : String :=
  if t ≥ 70 then "BUY" else if t ≥ 40 then "NEUTRAL" else "WAIT"

/-- Sum of the four timing components (sentiment is the fixed placeholder 5);
only the valuation component can raise. -/
def timingTotal (md : MarketData) : Except String ℤ :=
  exceptStep (timingValScore md.fundamentals) .error fun v =>
  .ok (timingTechScore md.history + v + timingMomScore md.history + 5)

/-- Result dict of `TimingScoreEngine.calculate_score`; the handler of lines
43-45 returns score 0 and signal UNKNOWN. -/
structure TimingResult where
  score : ℤ
  signal : String
  confidence : Option String
  errMsg : Option String
deriving DecidableEq, Repr

/-- `TimingScoreEngine.calculate_score`. -/
def timingCalculateScore (md : MarketData) : TimingResult :=
  exceptStep (timingTotal md) (fun e => ⟨0, "UNKNOWN", none, some e⟩)
    (fun t => ⟨t, timingSignalOf t, some (if t > 70 ∨ t < 30 then "HIGH" else "MEDIUM"), none⟩)

/-- Risk volatility component (`_calc_volatility_risk`, 40 pts): default 20
for short histories, else `round(min(40, (vol/40)*40))`. -/
def riskVolScore (history : List Bar) (vol : ℚ) : ℤ :=
  if history.length < 20 then 20 else pyRound (min 40 (vol / 40 * 40))

/-- Running maxima continuation. -/
def cummaxAux (m : ℚ) : List ℚ → List ℚ
  | [] => []
  | x :: xs => max m x :: cummaxAux (max m x) xs

/-- Pandas `cummax` over the closes. -/
def cummax : List ℚ → List ℚ
  | [] => []
  | x :: xs => x :: cummaxAux x xs

/-- Pointwise drawdown `(close - cummax) / cummax` (rational division by a
zero running maximum yields 0 where pandas would produce NaN; the final
clamp keeps the component in range either way). -/
def drawdowns (closes : List ℚ) : List ℚ :=
  List.zipWith (fun c m => (c - m) / m) closes (cummax closes)

/-- `_calc_drawdown_risk` (30 pts): default 15 on an empty history, else
`round(min(30, (abs(max_dd)/50)*30))` for the most negative drawdown (in
percent). -/
def riskDrawdownScore (history : List Bar) : ℤ :=
  if history = [] then 15
  else pyRound (min 30 (|((minQ (drawdowns (closesOf history))).getD 0) * 100| / 50 * 30))

/-- Debt addition of `_calc_fundamental_risk`. -/
def riskDeBonus (de : ℚ) : ℤ :=
  if de > 2 then 15 else if de > 1 then 8 else 0

/-- Beta addition of `_calc_fundamental_risk`. -/
def riskBetaBonus (beta : ℚ) : ℤ :=
  if beta > 3/2 then 15 else if beta > 6/5 then 8 else 0

/-- `_calc_fundamental_risk` (30 pts): debt and beta additions, capped at 30. -/
def riskFundScore (f : Fund) : Except String ℤ :=
  exceptStep (pyFloat (fgetD f "debtToEquity" (.num 0))) .error fun de0 =>
  exceptStep (pyFloat (fgetD f "beta" (.num 1))) .error fun beta =>
  .ok (min 30 (riskDeBonus (de0 / 100) + riskBetaBonus beta))

/-- `_get_level`. -/
def riskLevelOf (t : ℤ) : String :=
  if t ≥ 60 then "HIGH" else if t ≥ 30 then "MEDIUM" else "LOW"

/-- Sum of the three risk components; only the fundamentals component can
raise (the volatility and drawdown components are pure). -/
def riskTotal (md : MarketData) (vol : ℚ) : Except String ℤ :=
  exceptStep (riskFundScore md.fundamentals) .error fun fr =>
  .ok (riskVolScore md.history vol + riskDrawdownScore md.history + fr)

/-- Result dict of `RiskProfileEngine.calculate_risk`; the handler of lines
38-40 returns score 50 and level UNKNOWN. -/
structure RiskResult where
  riskScore : ℤ
  riskLevel : String
  errMsg : Option String
deriving DecidableEq, Repr

/-- `RiskProfileEngine.calculate_risk`. -/
def riskCalculateRisk (md : MarketData) (vol : ℚ) : RiskResult :=
  exceptStep (riskTotal md vol) (fun e => ⟨50, "UNKNOWN", some e⟩)
    (fun t => ⟨t, riskLevelOf t, none⟩)

/-! ### Bounds of the scorer components -/

theorem exceptStep_ok_inv {α β' : Type} {x : Except String α} {g : α → Except String β'}
    {t : β'} (h : exceptStep x Except.error g = .ok t) : ∃ v, x = .ok v ∧ g v = .ok t := by
  cases x with
  | error e => simp [exceptStep_error] at h
  | ok v => exact ⟨v, rfl, by simpa [exceptStep_ok] using h⟩

theorem min_max_clamp_bounds (lo hi s : ℤ) (h : lo ≤ hi) :
    lo ≤ min hi (max lo s) ∧ min hi (max lo s) ≤ hi :=
  ⟨le_min h (le_max_left _ _), min_le_left _ _⟩

theorem stabDeBonus_bounds (de : ℚ) : 0 ≤ stabDeBonus de ∧ stabDeBonus de ≤ 10 := by
  unfold stabDeBonus; split_ifs <;> omega

theorem stabCrBonus_bounds (cr : ℚ) : 0 ≤ stabCrBonus cr ∧ stabCrBonus cr ≤ 10 := by
  unfold stabCrBonus; split_ifs <;> omega

theorem stabRoeBonus_bounds (roe : ℚ) : 0 ≤ stabRoeBonus roe ∧ stabRoeBonus roe ≤ 10 := by
  unfold stabRoeBonus; split_ifs <;> omega

theorem stabMcapBonus_bounds (mc : ℚ) : 0 ≤ stabMcapBonus mc ∧ stabMcapBonus mc ≤ 10 := by
  unfold stabMcapBonus; split_ifs <;> omega

theorem stabVolScore_bounds (history : List Bar) (vol : ℚ) :
    0 ≤ stabVolScore history vol ∧ stabVolScore history vol ≤ 30 := by
  unfold stabVolScore
  split_ifs
  · omega
  · constructor
    · exact le_pyRound (by push_cast; exact le_max_left _ _)
    · exact pyRound_le (by push_cast; exact max_le (by norm_num) (min_le_left _ _))

theorem stabFundScore_bounds {f : Fund} {t : ℤ} (h : stabFundScore f = .ok t) :
    0 ≤ t ∧ t ≤ 30 := by
  unfold stabFundScore at h
  obtain ⟨de, -, h⟩ := exceptStep_ok_inv h
  obtain ⟨cr, -, h⟩ := exceptStep_ok_inv h
  obtain ⟨roe0, -, h⟩ := exceptStep_ok_inv h
  simp only [Except.ok.injEq] at h
  have hd := stabDeBonus_bounds de
  have hc := stabCrBonus_bounds cr
  have hr := stabRoeBonus_bounds (roe0 * 100)
  omega

theorem stabMktScore_bounds {f : Fund} {t : ℤ} (h : stabMktScore f = .ok t) :
    0 ≤ t ∧ t ≤ 15 := by
  unfold stabMktScore at h
  obtain ⟨mc, -, h⟩ := exceptStep_ok_inv h
  simp only [Except.ok.injEq] at h
  have hm := stabMcapBonus_bounds mc
  omega

theorem stabGrowthScore_bounds {f : Fund} {t : ℤ} (h : stabGrowthScore f = .ok t) :
    0 ≤ t ∧ t ≤ 15 := by
  unfold stabGrowthScore at h
  obtain ⟨rg, -, h⟩ := exceptStep_ok_inv h
  simp only [Except.ok.injEq] at h
  split_ifs at h <;> omega

theorem stabilityTotal_bounds {md : MarketData} {vol : ℚ} {t : ℤ}
    (h : stabilityTotal md vol = .ok t) : 0 ≤ t ∧ t ≤ 90 := by
  unfold stabilityTotal at h
  obtain ⟨f, hf, h⟩ := exceptStep_ok_inv h
  obtain ⟨m, hm, h⟩ := exceptStep_ok_inv h
  obtain ⟨g, hg, h⟩ := exceptStep_ok_inv h
  simp only [Except.ok.injEq] at h
  have h1 := stabVolScore_bounds md.history vol
  have h2 := stabFundScore_bounds hf
  have h3 := stabMktScore_bounds hm
  have h4 := stabGrowthScore_bounds hg
  omega

theorem stabilityScore_bounds (md : MarketData) (vol : ℚ) :
    0 ≤ (stabilityCalculateScore md vol).score ∧
    (stabilityCalculateScore md vol).score ≤ 90 := by
  unfold stabilityCalculateScore
  cases h : stabilityTotal md vol with
  | error e => simp [exceptStep_error]
  | ok t =>
    simp only [exceptStep_ok]
    exact stabilityTotal_bounds h

theorem timingPeBonus_bounds (pe : ℚ) : -5 ≤ timingPeBonus pe ∧ timingPeBonus pe ≤ 10 := by
  unfold timingPeBonus; split_ifs <;> omega

theorem timingPbBonus_bounds (pb : ℚ) : 0 ≤ timingPbBonus pb ∧ timingPbBonus pb ≤ 5 := by
  unfold timingPbBonus; split_ifs <;> omega

theorem timingTechScore_bounds (history : List Bar) :
    0 ≤ timingTechScore history ∧ timingTechScore history ≤ 40 := by
  unfold timingTechScore
  split_ifs
  · omega
  · exact min_max_clamp_bounds 0 40 _ (by omega)

theorem timingValScore_bounds {f : Fund} {t : ℤ} (h : timingValScore f = .ok t) :
    0 ≤ t ∧ t ≤ 30 := by
  unfold timingValScore at h
  obtain ⟨pe, -, h⟩ := exceptStep_ok_inv h
  obtain ⟨pb, -, h⟩ := exceptStep_ok_inv h
  simp only [Except.ok.injEq] at h
  have := min_max_clamp_bounds 0 30 (15 + timingPeBonus pe + timingPbBonus pb) (by omega)
  omega

theorem timingMomScore_bounds (history : List Bar) :
    10 ≤ timingMomScore history ∧ timingMomScore history ≤ 20 := by
  unfold timingMomScore
  split_ifs
  · omega
  · dsimp only
    split_ifs <;> omega

theorem timingTotal_bounds {md : MarketData} {t : ℤ} (h : timingTotal md = .ok t) :
    0 ≤ t ∧ t ≤ 100 := by
  unfold timingTotal at h
  obtain ⟨v, hv, h⟩ := exceptStep_ok_inv h
  simp only [Except.ok.injEq] at h
  have h1 := timingTechScore_bounds md.history
  have h2 := timingValScore_bounds hv
  have h3 := timingMomScore_bounds md.history
  omega

theorem timingScore_bounds (md : MarketData) :
    0 ≤ (timingCalculateScore md).score ∧ (timingCalculateScore md).score ≤ 100 := by
  unfold timingCalculateScore
  cases h : timingTotal md with
  | error e => simp [exceptStep_error]
  | ok t =>
    simp only [exceptStep_ok]
    exact timingTotal_bounds h

theorem riskVolScore_bounds (history : List Bar) {vol : ℚ} (hv : 0 ≤ vol) :
    0 ≤ riskVolScore history vol ∧ riskVolScore history vol ≤ 40 := by
  unfold riskVolScore
  split_ifs
  · omega
  · constructor
    · refine le_pyRound ?_
      push_cast
      exact le_min (by norm_num) (by positivity)
    · refine pyRound_le ?_
      push_cast
      exact min_le_left _ _

theorem riskDrawdownScore_bounds (history : List Bar) :
    0 ≤ riskDrawdownScore history ∧ riskDrawdownScore history ≤ 30 := by
  unfold riskDrawdownScore
  split_ifs
  · omega
  · constructor
    · refine le_pyRound ?_
      push_cast
      exact le_min (by norm_num) (by positivity)
    · refine pyRound_le ?_
      push_cast
      exact min_le_left _ _

theorem riskDeBonus_bounds (de : ℚ) : 0 ≤ riskDeBonus de ∧ riskDeBonus de ≤ 15 := by
  unfold riskDeBonus; split_ifs <;> omega

theorem riskBetaBonus_bounds (beta : ℚ) : 0 ≤ riskBetaBonus beta ∧ riskBetaBonus beta ≤ 15 := by
  unfold riskBetaBonus; split_ifs <;> omega

theorem riskFundScore_bounds {f : Fund} {t : ℤ} (h : riskFundScore f = .ok t) :
    0 ≤ t ∧ t ≤ 30 := by
  unfold riskFundScore at h
  obtain ⟨de0, -, h⟩ := exceptStep_ok_inv h
  obtain ⟨beta, -, h⟩ := exceptStep_ok_inv h
  simp only [Except.ok.injEq] at h
  have h1 := riskDeBonus_bounds (de0 / 100)
  have h2 := riskBetaBonus_bounds beta
  omega

theorem riskTotal_bounds {md : MarketData} {vol : ℚ} {t : ℤ} (hv : 0 ≤ vol)
    (h : riskTotal md vol = .ok t) : 0 ≤ t ∧ t ≤ 100 := by
  unfold riskTotal at h
  obtain ⟨fr, hfr, h⟩ := exceptStep_ok_inv h
  simp only [Except.ok.injEq] at h
  have h1 := riskVolScore_bounds md.history hv
  have h2 := riskDrawdownScore_bounds md.history
  have h3 := riskFundScore_bounds hfr
  omega

theorem riskScore_bounds (md : MarketData) {vol : ℚ} (hv : 0 ≤ vol) :
    0 ≤ (riskCalculateRisk md vol).riskScore ∧ (riskCalculateRisk md vol).riskScore ≤ 100 := by
  unfold riskCalculateRisk
  cases h : riskTotal md vol with
  | error e => simp [exceptStep_error]
  | ok t =>
    simp only [exceptStep_ok]
    exact riskTotal_bounds hv h

/-! ### Claim C6 -/

/-- C6: for every `market_data` input — including empty history, missing or
malformed fundamentals values (which raise inside the scorer and are caught
by its handler) — and every non-negative annualized volatility, the totals
returned by the Stability, Timing and Risk scorers all lie in [0, 100]. -/
theorem scorer_totals_within_range (md : MarketData) (vol : ℚ) (hv : 0 ≤ vol) :
    (0 ≤ (stabilityCalculateScore md vol).score ∧
      (stabilityCalculateScore md vol).score ≤ 100) ∧
    (0 ≤ (timingCalculateScore md).score ∧ (timingCalculateScore md).score ≤ 100) ∧
    (0 ≤ (riskCalculateRisk md vol).riskScore ∧
      (riskCalculateRisk md vol).riskScore ≤ 100) := by
  have h1 := stabilityScore_bounds md vol
  have h2 := timingScore_bounds md
  have h3 := riskScore_bounds md hv
  exact ⟨⟨h1.1, by omega⟩, h2, h3⟩

/-- A degenerate input: no history and a non-numeric beta, which makes the
risk scorer take its exception path. -/
def md6 : MarketData := ⟨[], [("beta", PyV.bad)]⟩

theorem scorer_totals_within_range_witness :
    (0:ℚ) ≤ 0 ∧
    ((0 ≤ (stabilityCalculateScore md6 0).score ∧
       (stabilityCalculateScore md6 0).score ≤ 100) ∧
     (0 ≤ (timingCalculateScore md6).score ∧ (timingCalculateScore md6).score ≤ 100) ∧
     (0 ≤ (riskCalculateRisk md6 0).riskScore ∧
       (riskCalculateRisk md6 0).riskScore ≤ 100)) :=
  ⟨le_refl 0, scorer_totals_within_range md6 0 (le_refl 0)⟩

/-! ### Claim C10 -/

/-- The numeric total of a fallible component; a raised exception never
contributes points (the whole scorer then returns its 0-score default). -/
def exceptScore (x : Except String ℤ) : ℤ :=
  match x with
  | .ok t => t
  | .error _ => 0

/-- C10: the stability total never exceeds 90: the volatility component is at
most 30, the fundamentals component at most 30, the market-position component
at most 15 (a market-cap band of at most 10 points plus the fixed 5-point
liquidity baseline), and the growth component at most 15, so the nominal
100-point maximum is unreachable. -/
theorem stability_score_max_ninety (md : MarketData) (vol mc : ℚ) :
    (stabilityCalculateScore md vol).score ≤ 90 ∧
    stabVolScore md.history vol ≤ 30 ∧
    exceptScore (stabFundScore md.fundamentals) ≤ 30 ∧
    stabMcapBonus mc ≤ 10 ∧
    exceptScore (stabMktScore md.fundamentals) ≤ 15 ∧
    exceptScore (stabGrowthScore md.fundamentals) ≤ 15 := by
  refine ⟨(stabilityScore_bounds md vol).2, (stabVolScore_bounds md.history vol).2,
    ?_, (stabMcapBonus_bounds mc).2, ?_, ?_⟩
  · cases h : stabFundScore md.fundamentals with
    | error e => simp [exceptScore]
    | ok t => simpa [exceptScore] using (stabFundScore_bounds h).2
  · cases h : stabMktScore md.fundamentals with
    | error e => simp [exceptScore]
    | ok t => simpa [exceptScore] using (stabMktScore_bounds h).2
  · cases h : stabGrowthScore md.fundamentals with
    | error e => simp [exceptScore]
    | ok t => simpa [exceptScore] using (stabGrowthScore_bounds h).2

/-! ### Recommendation Composer (`market_service._generate_recommendation`)

The inputs are the fields read from the three score dicts and the fundamental
analysis: `stability.get('score', 0)`, `timing.get('score', 0)`,
`timing.get('signal', 'NEUTRAL')`, `risk.get('risk_score', 50)`,
`fundamental.get('health_score', 50)`. -/

/-- The action/confidence/reasoning selection of lines 475-502, as a function
of the composite score and the timing signal. -/
def recDecision (composite : ℚ) (sig : String) : String × String × String :=
  if 75 ≤ composite ∧ sig = "BUY" then
    ("STRONG BUY", "HIGH", "Excellent fundamentals, perfect entry timing, low risk.")
  else if 65 ≤ composite then
    ("BUY", "MEDIUM", "Solid fundamentals with favorable risk-reward.")
  else if 55 ≤ composite then
    (if sig = "BUY" then
      ("ACCUMULATE", "MEDIUM", "Good long-term value, consider adding on dips.")
    else
      ("HOLD", "MEDIUM", "Stable stock, but wait for better momentum to add more."))
  else if 40 ≤ composite then
    ("HOLD", "LOW", "Mixed signals. If you own it, continue holding; otherwise wait.")
  else if 25 ≤ composite then
    ("REDUCE", "MEDIUM", "Weakening fundamentals or trend. Consider trimming position.")
  else ("SELL", "HIGH", "Multiple red flags detected. High risk.")

/-- The returned recommendation dict (the `key_factors` echoes are omitted). -/
structure Recommendation where
  action : String
  confidence : String
  compositeScore : ℤ
  reasoning : String
deriving DecidableEq, Repr

/-- `_generate_recommendation`: composite = stability·0.3 + timing·0.3 +
(100−risk)·0.2 + health·0.2, then the step-function decision, with the
composite rounded for the returned dict. -/
def generateRecommendation (stabilityScore timingScore : ℚ) (timingSignal : String)
    (riskScore fundHealth : ℚ) : Recommendation :=
  let composite := stabilityScore * (3/10) + timingScore * (3/10) +
    (100 - riskScore) * (2/10) + fundHealth * (2/10)
  ⟨(recDecision composite timingSignal).1, (recDecision composite timingSignal).2.1,
   pyRound composite, (recDecision composite timingSignal).2.2⟩

/-- Position of an action in the ordering SELL < REDUCE < HOLD < ACCUMULATE
< BUY < STRONG BUY. -/
def actionRank (a : String) : ℕ :=
  if a = "SELL" then 0 else if a = "REDUCE" then 1 else if a = "HOLD" then 2
  else if a = "ACCUMULATE" then 3 else if a = "BUY" then 4
  else if a = "STRONG BUY" then 5 else 0

theorem actionRank_recDecision (c : ℚ) (sig : String) :
    actionRank (recDecision c sig).1 =
      if 75 ≤ c ∧ sig = "BUY" then 5
      else if 65 ≤ c then 4
      else if 55 ≤ c then (if sig = "BUY" then 3 else 2)
      else if 40 ≤ c then 2
      else if 25 ≤ c then 1
      else 0 := by
  unfold recDecision
  split_ifs <;> decide

/-! ### Claim C5 -/

/-- C5: for a fixed timing signal the action is monotone non-decreasing in
the composite score under SELL < REDUCE < HOLD < ACCUMULATE < BUY <
STRONG BUY, and STRONG BUY occurs only when the composite is at least 75 and
the timing signal is BUY; `_generate_recommendation` applies exactly this
decision to its weighted composite. -/
theorem recommendation_action_monotone (sig : String) (c₁ c₂ : ℚ) (h : c₁ ≤ c₂) :
    actionRank (recDecision c₁ sig).1 ≤ actionRank (recDecision c₂ sig).1 ∧
    (∀ c : ℚ, ∀ s : String, (recDecision c s).1 = "STRONG BUY" → 75 ≤ c ∧ s = "BUY") ∧
    (∀ stab tim risk health : ℚ, ∀ s : String,
      (generateRecommendation stab tim s risk health).action =
        (recDecision (stab * (3/10) + tim * (3/10) + (100 - risk) * (2/10) +
          health * (2/10)) s).1) := by
  refine ⟨?_, ?_, ?_⟩
  · rw [actionRank_recDecision, actionRank_recDecision]
    by_cases hb : sig = "BUY"
    · simp only [hb, and_true]
      split_ifs <;> first | omega | linarith
    · simp only [hb, and_false, if_false]
      split_ifs <;> first | omega | linarith
  · intro c s hs
    unfold recDecision at hs
    split_ifs at hs with h1 h2 h3 h4 h5 h6
    · exact h1
    · exact absurd hs (by decide)
    · exact absurd hs (by decide)
    · exact absurd hs (by decide)
    · exact absurd hs (by decide)
    · exact absurd hs (by decide)
    · exact absurd hs (by decide)
  · intro stab tim risk health s
    rfl

theorem recommendation_action_monotone_witness :
    ((40:ℚ) ≤ 60) ∧
    (actionRank (recDecision 40 "NEUTRAL").1 ≤ actionRank (recDecision 60 "NEUTRAL").1 ∧
     (∀ c : ℚ, ∀ s : String, (recDecision c s).1 = "STRONG BUY" → 75 ≤ c ∧ s = "BUY") ∧
     (∀ stab tim risk health : ℚ, ∀ s : String,
       (generateRecommendation stab tim s risk health).action =
         (recDecision (stab * (3/10) + tim * (3/10) + (100 - risk) * (2/10) +
           health * (2/10)) s).1)) :=
  ⟨by norm_num, recommendation_action_monotone "NEUTRAL" 40 60 (by norm_num)⟩

/-! ### Batch rankers (`recommendation/general_recommender.py`,
`recommendation/sector_recommender.py`)

`GeneralRecommender._apply_diversification` sorts the scored stocks by
composite score descending (Python sort is stable) and walks the sorted list,
skipping a stock whose sector already has 2 picks and stopping once `limit`
picks are collected (`break` is modelled by skipping the remaining
iterations, which collect nothing more; the `risk_count` dict is written but
never read, so it is omitted).  `SectorRecommender.get_top_picks` merely
sorts its scored results descending and returns `results[:limit]` — it
applies no per-sector cap. -/

/-- One scored stock record, with the fields the ranking steps read. -/
structure ScoredStock where
  symbol : String
  sector : String
  riskLevel : String
  compositeScore : ℚ
deriving DecidableEq, Repr

/-- Stable insertion for descending sort: an earlier element stays in front
of later elements of equal score. -/
def insertByScore (x : ScoredStock) : List ScoredStock → List ScoredStock
  | [] => [x]
  | y :: ys => if x.compositeScore ≥ y.compositeScore then x :: y :: ys
               else y :: insertByScore x ys

/-- `sorted(key=composite, reverse=True)` / stable descending sort. -/
def sortByScoreDesc (l : List ScoredStock) : List ScoredStock :=
  l.foldr insertByScore []

/-- `sector_count.get(sector, 0)` on the counts dict. -/
def lookupCount : List (String × ℕ) → String → ℕ
  | [], _ => 0
  | (k, v) :: rest, s => if k = s then v else lookupCount rest s

/-- One iteration of the `_apply_diversification` loop over the state
(diversified picks, sector counts). -/
def divStep (limit : ℕ) (acc : List ScoredStock × List (String × ℕ))
    (stock : ScoredStock) : List ScoredStock × List (String × ℕ) :=
  if limit ≤ acc.1.length then acc
  else if 2 ≤ lookupCount acc.2 stock.sector then acc
  else (acc.1 ++ [stock], (stock.sector, lookupCount acc.2 stock.sector + 1) :: acc.2)

/-- `GeneralRecommender._apply_diversification` (lines 290-320). -/
def applyDiversification (scored : List ScoredStock) (limit : ℕ) : List ScoredStock :=
  ((sortByScoreDesc scored).foldl (divStep limit) ([], [])).1

/-- Steps 4-5 of `SectorRecommender.get_top_picks` (lines 92-106): sort by
composite score descending, return the first `limit` entries. -/
def sectorTopPicks (results : List ScoredStock) (limit : ℕ) : List ScoredStock :=
  (sortByScoreDesc results).take limit

/-- Number of picks from one sector. -/
def countSector (s : String) : List ScoredStock → ℕ
  | [] => 0
  | x :: xs => (if x.sector = s then 1 else 0) + countSector s xs

theorem countSector_singleton (s : String) (x : ScoredStock) :
    countSector s [x] = if x.sector = s then 1 else 0 := by
  simp [countSector]

theorem lookupCount_cons (k : String) (v : ℕ) (m : List (String × ℕ)) (s : String) :
    lookupCount ((k, v) :: m) s = if k = s then v else lookupCount m s := rfl

theorem countSector_append (s : String) (l₁ l₂ : List ScoredStock) :
    countSector s (l₁ ++ l₂) = countSector s l₁ + countSector s l₂ := by
  induction l₁ with
  | nil => simp [countSector]
  | cons x xs ih => simp [countSector, ih]; omega

/-- Loop invariant: the counts dict counts the picks per sector, and no
sector exceeds 2. -/
def divInv (acc : List ScoredStock × List (String × ℕ)) : Prop :=
  ∀ s, countSector s acc.1 = lookupCount acc.2 s ∧ countSector s acc.1 ≤ 2

theorem divStep_inv (limit : ℕ) (acc : List ScoredStock × List (String × ℕ))
    (stock : ScoredStock) (h : divInv acc) : divInv (divStep limit acc stock) := by
  unfold divStep
  split_ifs with h1 h2
  · exact h
  · exact h
  · intro s
    have hs := h s
    have hb := h stock.sector
    rw [countSector_append, countSector_singleton, lookupCount_cons]
    by_cases hsec : stock.sector = s
    · subst hsec
      rw [if_pos rfl, if_pos rfl]
      omega
    · rw [if_neg hsec, if_neg hsec]
      omega

theorem foldl_divStep_inv (limit : ℕ) (l : List ScoredStock)
    (acc : List ScoredStock × List (String × ℕ)) (h : divInv acc) :
    divInv (l.foldl (divStep limit) acc) := by
  induction l generalizing acc with
  | nil => exact h
  | cons x xs ih => exact ih _ (divStep_inv limit acc x h)

/-! ### Claim C8 -/

/-- C8 (amended): the general recommender's diversification step never
returns more than 2 picks from one sector, for every scored list and every
limit — even an undersized universe only makes the result shorter, never
over-concentrated; the sector recommender, in contrast, applies no per-sector
cap at all and simply returns the top `limit` scored stocks of the queried
sector. -/
theorem general_recommender_sector_cap (scored : List ScoredStock) (limit : ℕ)
    (s : String) : countSector s (applyDiversification scored limit) ≤ 2 := by
  have h0 : divInv ([], []) := by
    intro s
    exact ⟨rfl, by simp [countSector]⟩
  exact ((foldl_divStep_inv limit (sortByScoreDesc scored) ([], []) h0) s).2

/-- Five scored stocks: the three best are all IT, two FIN stocks follow. -/
def csStocks : List ScoredStock :=
  [⟨"A", "IT", "LOW", 90⟩, ⟨"B", "IT", "LOW", 85⟩, ⟨"C", "IT", "LOW", 80⟩,
   ⟨"D", "FIN", "LOW", 70⟩, ⟨"E", "FIN", "LOW", 60⟩]

theorem csStocks_sorted : sortByScoreDesc csStocks = csStocks := by decide

/-- C8 counterexample: with limit 3 on `csStocks` the sector recommender
returns three IT picks, although the universe is not undersized — the
diversification step fills the same limit with at most 2 IT picks. -/
theorem sector_recommender_cap_counterexample :
    countSector "IT" (sectorTopPicks csStocks 3) = 3 ∧
    countSector "IT" (applyDiversification csStocks 3) ≤ 2 ∧
    (applyDiversification csStocks 3).length = 3 := by
  have hd : applyDiversification csStocks 3 =
      [⟨"A", "IT", "LOW", 90⟩, ⟨"B", "IT", "LOW", 85⟩, ⟨"D", "FIN", "LOW", 70⟩] := by
    decide
  refine ⟨?_, ?_, ?_⟩
  · rw [sectorTopPicks, csStocks_sorted]
    simp [csStocks, countSector]
  · rw [hd]
    simp [countSector]
  · rw [hd]
    rfl
